import Mathlib

/-!
Verification of the music-generation pipeline of the coral-zen-sonify
repository: the generation coordinator (src/services/MusicGenerationService.ts),
the provider variants (src/providers/AudioCraftProvider.ts,
src/providers/ElevenLabsProvider.ts, src/providers/ElevenLabsOnlyProvider.ts,
the DiffRhythm provider), and the prompt builders.  TypeScript values are
embedded shallowly: JS strings become String, JS non-negative integral numbers
become Nat (Int where sign matters), optional fields become Option, thrown JS
exceptions become an explicit error type threaded through Except, and the
DataView byte writes of the WAV serializer become a List Nat of bytes with
explicit reductions modulo 2 ^ 32 and 2 ^ 16.
-/

set_option autoImplicit false

/-- JS falsy-or for an optional number: `x || d` yields `d` when `x` is
`undefined` or `0`. -/
def jsOrNat (x : Option Nat) (d : Nat) : Nat :=
  match x with
  | none => d
  | some n => if n = 0 then d else n

/-- JS falsy-or for an optional string: `x || d` yields `d` when `x` is
`undefined` or the empty string. -/
def jsOrStr (x : Option String) (d : String) : String :=
  match x with
  | none => d
  | some s => if s = "" then d else s

/-- A JS exception value: either `new Error(msg)` raised by the code itself,
or a transport-level exception (network failure, JSON parse failure, ...)
raised by the runtime. -/
inductive JsError where
  | error (msg : String)
  | exception (tag : String)
deriving DecidableEq, Repr

/-- The `tempo` field of the TS configs has type `number | string`. -/
inductive TempoVal where
  | num (n : Int)
  | str (s : String)
deriving DecidableEq, Repr

/-- Structure `MusicGenerationConfig` from src/services/MusicGenerationService.ts.
All fields are optional in the TS interface. -/
structure MusicGenerationConfig where
  duration : Option Nat := none
  style : Option String := none
  mood : Option String := none
  tempo : Option TempoVal := none
  key : Option String := none
  instruments : Option (List String) := none
  includeVocals : Option Bool := none
  binaural : Option Bool := none
  frequency : Option Nat := none
deriving DecidableEq, Repr

/-- Structure `GeneratedMusic` from src/services/MusicGenerationService.ts.  The
metadata object is flattened to its model name and prompt; the `config` echo
and the wall-clock `generatedAt` timestamp are omitted from the model since no
claim concerns them. -/
structure GeneratedMusic where
  audioUrl : String
  duration : Nat
  format : String
  model : String
  prompt : String
deriving DecidableEq, Repr

/-- Structure `ElevenLabsConfig` from src/providers/ElevenLabsOnlyProvider.ts
(duration is a required field there). -/
structure ElevenLabsConfig where
  duration : Nat
  style : Option String := none
  mood : Option String := none
  instruments : Option (List String) := none
  tempo : Option TempoVal := none
  key : Option String := none
deriving DecidableEq, Repr

/-- JS `String.prototype.toLowerCase`, for the ASCII strings used by the
tempo table: maps each character through `Char.toLower`.  (Defined over the
character list so that it reduces in the kernel; `String.toLower` in core is
byte-index recursion that does not.) -/
def jsToLower (s : String) : String :=
  String.mk (s.data.map Char.toLower)

/-- Whitespace as trimmed by `String.prototype.trim` (restricted to the ASCII
whitespace characters, which are the only ones these prompts contain). -/
def isWsChar (c : Char) : Bool :=
  c = ' ' || c = '\t' || c = '\n' || c = '\r'

/-- JS `String.prototype.trim`: drop whitespace from both ends. -/
def jsTrim (s : String) : String :=
  String.mk (((s.data.dropWhile isWsChar).reverse.dropWhile isWsChar).reverse)

/-- JS truthiness of the optional `number | string` field `config.tempo`:
`undefined`, `0` and the empty string are falsy. -/
def tempoTruthy (t : Option TempoVal) : Bool :=
  match t with
  | none => false
  | some (TempoVal.num n) => n != 0
  | some (TempoVal.str s) => s != ""

/-- The lookup table of `ElevenLabsOnlyProvider.convertTempoToBPM` (identical
in ElevenLabsProvider.convertTempoToBPM). -/
def tempoMapEL : List (String × Int) :=
  [("very slow", 60), ("slow", 70), ("moderate", 90),
   ("medium", 110), ("fast", 130), ("very fast", 150)]

/-- Function `ElevenLabsOnlyProvider.convertTempoToBPM`
(src/providers/ElevenLabsOnlyProvider.ts lines 150-163): numbers pass
through; strings are lowercased and looked up in the fixed table, with 90 as
the fallthrough (`tempoMap[tempo.toLowerCase()] || 90`; every table value is
truthy, so `||` only supplies the miss case). -/
def elevenLabsOnly_convertTempoToBPM (tempo : TempoVal) : Int :=
  match tempo with
  | TempoVal.num n => n
  | TempoVal.str s => (tempoMapEL.lookup (jsToLower s)).getD 90

/-- Function `EnhancedMusicGenerationAgent.convertTempoToBPM`
(src/components/EnhancedMusicGenerationAgent.tsx lines 233-240): an exact
switch on the optional string. -/
def agent_convertTempoToBPM (tempo : Option String) : Int :=
  match tempo with
  | some s =>
    if s = "slow" then 70
    else if s = "medium" then 90
    else if s = "fast" then 110
    else 80
  | none => 80

/-- Function `ElevenLabsOnlyProvider.optimizePrompt`
(src/providers/ElevenLabsOnlyProvider.ts lines 112-148), written as the same
sequence of conditional appends as the source. -/
def optimizePrompt (prompt : String) (config : ElevenLabsConfig) : String :=
  let o0 := jsTrim prompt
  let o1 :=
    if tempoTruthy config.tempo then
      match config.tempo with
      | some t =>
          o0 ++ ". Tempo: " ++ toString (elevenLabsOnly_convertTempoToBPM t) ++ " BPM"
      | none => o0
    else o0
  let o2 :=
    match config.style with
    | some s => if s = "" then o1 else o1 ++ ". Style: " ++ s
    | none => o1
  let o3 :=
    match config.mood with
    | some m => if m = "" then o2 else o2 ++ ". Mood: " ++ m
    | none => o2
  let o4 :=
    match config.instruments with
    | some l => if l.length > 0 then o3 ++ ". Instruments: " ++ String.intercalate (", ") l else o3
    | none => o3
  let o5 := o4 ++ ". Duration: " ++ toString (if config.duration = 0 then 30 else config.duration) ++ " seconds"
  let o6 :=
    match config.key with
    | some k => if k = "" then o5 else o5 ++ ". Key: " ++ k
    | none => o5
  o6 ++ ". High quality professional music production."

/-- The `MusicProvider` interface of src/services/MusicGenerationService.ts.
`checkHealth` and `generateMusic` are `Promise`-returning and may throw; the
embedding gives each a resolved outcome in `Except JsError`.  A provider is
stateless across requests, so the outcome of `generateMusic` is a function of
the prompt and config alone. -/
structure MProvider where
  pname : String
  maxDuration : Nat
  supportsVocals : Bool
  checkHealth : Except JsError Bool
  generateMusic : String → MusicGenerationConfig → Except JsError GeneratedMusic

/-- An observable call the coordinator makes into a provider, recorded for
the spy-provider style properties of the spec. -/
inductive CallEvent where
  | healthCheck (nm : String)
  | generate (nm : String)
deriving DecidableEq, Repr

/-- One try-block of `MusicGenerationService.generateMusic`
(src/services/MusicGenerationService.ts lines 51-59 and 62-70): run
`checkHealth`; if it resolves true, run `generateMusic`; any thrown error is
caught by the surrounding catch, which turns the attempt into a miss.  The
second component records the provider calls actually made. -/
def tryProvider (nm : String) (p : MProvider) (prompt : String)
    (config : MusicGenerationConfig) : Option GeneratedMusic × List CallEvent :=
  match p.checkHealth with
  | Except.error _ => (none, [CallEvent.healthCheck nm])
  | Except.ok false => (none, [CallEvent.healthCheck nm])
  | Except.ok true =>
    match p.generateMusic prompt config with
    | Except.ok m => (some m, [CallEvent.healthCheck nm, CallEvent.generate nm])
    | Except.error _ => (none, [CallEvent.healthCheck nm, CallEvent.generate nm])

/-- State of a `MusicGenerationService` instance: the provider registry (a
JS `Map` embedded as an association list keyed by name) and the two
configured provider names, with the constructor defaults of the source. -/
structure ServiceState where
  providers : List (String × MProvider)
  primaryProvider : String := "diffrhythm"
  fallbackProvider : String := "audiocraft"

/-- One provider attempt of the coordinator: lookup by name, then the
try-block; an unregistered name makes no provider calls at all. -/
def attemptProvider (s : ServiceState) (nm : String) (prompt : String)
    (config : MusicGenerationConfig) : Option GeneratedMusic × List CallEvent :=
  match s.providers.lookup nm with
  | none => (none, [])
  | some p => tryProvider nm p prompt config

/-- Method `MusicGenerationService.generateMusic`
(src/services/MusicGenerationService.ts lines 47-73): try the primary
provider, then the fallback provider, then throw
`new Error(...)`.  Returns the outcome together with the trace of provider
calls made. -/
def serviceGenerateMusic (s : ServiceState) (prompt : String)
    (config : MusicGenerationConfig) : Except JsError GeneratedMusic × List CallEvent :=
  match attemptProvider s s.primaryProvider prompt config with
  | (some m, ev) => (Except.ok m, ev)
  | (none, ev1) =>
    match attemptProvider s s.fallbackProvider prompt config with
    | (some m, ev2) => (Except.ok m, ev1 ++ ev2)
    | (none, ev2) =>
      (Except.error (JsError.error ("All music generation providers are unavailable")), ev1 ++ ev2)

/-- Method `MusicGenerationService.setPreferredProvider`
(src/services/MusicGenerationService.ts lines 79-83): update the primary name
only when it is registered. -/
def setPreferredProvider (s : ServiceState) (providerName : String) : ServiceState :=
  if (s.providers.lookup providerName).isSome then
    { s with primaryProvider := providerName }
  else s

/-- Method `MusicGenerationService.addProvider`
(src/services/MusicGenerationService.ts lines 43-45): `Map.set` replaces an
existing binding of the same key, else appends in insertion order. -/
def addProvider (s : ServiceState) (nm : String) (p : MProvider) : ServiceState :=
  { s with providers :=
      if (s.providers.lookup nm).isSome then
        s.providers.map (fun kv => if kv.1 = nm then (nm, p) else kv)
      else s.providers ++ [(nm, p)] }

/-- Constant `AudioCraftProvider.maxDuration` (src/providers/AudioCraftProvider.ts
line 5). -/
def audioCraft_maxDuration : Nat := 30

/-- The blob URL handed out by `URL.createObjectURL` for the WAV blob of one
generated AudioCraft segment.  The generated buffer is a deterministic
function of the prompt and the clamped duration (up to the cosmetic noise
texture), so the model tags the URL with those two. -/
def audioCraft_blobUrl (prompt : String) (duration : Nat) : String :=
  "blob:audiocraft/" ++ toString duration ++ "/" ++ prompt

/-- Method `AudioCraftProvider.generateSingleSegment`
(src/providers/AudioCraftProvider.ts lines 31-94): clamps the duration to
`min(config.duration || 30, maxDuration)`, synthesizes a buffer, and returns
it as a WAV blob URL. -/
def audioCraft_generateSingleSegment (prompt : String)
    (config : MusicGenerationConfig) : GeneratedMusic :=
  let duration := min (jsOrNat config.duration 30) audioCraft_maxDuration
  { audioUrl := audioCraft_blobUrl prompt duration
    duration := duration
    format := "wav"
    model := "AudioCraft-Demo"
    prompt := prompt }

/-- Method `AudioCraftProvider.combineAudioSegments`
(src/providers/AudioCraftProvider.ts lines 129-136): returns the URL of the
first segment only (`segments[0].audioUrl`); callers never pass the empty
list, for which JS would throw, so the default head is irrelevant. -/
def audioCraft_combineAudioSegments (segments : List GeneratedMusic) : String :=
  ((segments.headD { audioUrl := "", duration := 0, format := "", model := "", prompt := "" }).audioUrl)

/-- The per-segment config built inside `generateSegmentedMusic`
(src/providers/AudioCraftProvider.ts lines 103-109): the last segment gets
`totalDuration % segmentDuration || segmentDuration`, every other segment the
full `segmentDuration`. -/
def audioCraft_segmentConfig (config : MusicGenerationConfig) (segments i : Nat) : MusicGenerationConfig :=
  let totalDuration := jsOrNat config.duration 60
  let segmentDuration := audioCraft_maxDuration
  let segDur :=
    if i = segments - 1 then
      jsOrNat (some (totalDuration % segmentDuration)) segmentDuration
    else segmentDuration
  { config with duration := some segDur }

/-- Method `AudioCraftProvider.generateSegmentedMusic`
(src/providers/AudioCraftProvider.ts lines 96-127): generates `segments`
single segments with suffixed prompts, combines them via
`combineAudioSegments`, and reports the full requested duration. -/
def audioCraft_generateSegmentedMusic (prompt : String)
    (config : MusicGenerationConfig) (segments : Nat) : GeneratedMusic :=
  let totalDuration := jsOrNat config.duration 60
  let segmentResults := (List.range segments).map (fun i =>
    audioCraft_generateSingleSegment
      (prompt ++ " (segment " ++ toString (i + 1) ++ ")")
      (audioCraft_segmentConfig config segments i))
  { audioUrl := audioCraft_combineAudioSegments segmentResults
    duration := totalDuration
    format := "wav"
    model := "AudioCraft-Segmented"
    prompt := prompt }

/-- Method `AudioCraftProvider.generateMusic`
(src/providers/AudioCraftProvider.ts lines 17-29): when
`ceil((config.duration || 30) / maxDuration)` exceeds one segment, delegate
to segmented generation, else to the single segment path. -/
def audioCraft_generateMusic (prompt : String)
    (config : MusicGenerationConfig) : GeneratedMusic :=
  let segments := (jsOrNat config.duration 30 + audioCraft_maxDuration - 1) / audioCraft_maxDuration
  if segments > 1 then
    audioCraft_generateSegmentedMusic prompt config segments
  else
    audioCraft_generateSingleSegment prompt config

/-- The JSON body the elevenlabs-music edge function returns, as consumed by
`ElevenLabsOnlyProvider.generateMusic` (only the fields that function reads). -/
structure ApiData where
  status : String
  errField : Option String
  url : String
  durationField : Nat
  formatField : Option String
deriving DecidableEq, Repr

/-- The outcome of `response.json()`: either the parse throws or it yields a
body. -/
inductive BodyOutcome where
  | malformed (e : JsError)
  | json (data : ApiData)
deriving DecidableEq, Repr

/-- The resolved outcome of the `fetch` call made by
`ElevenLabsOnlyProvider.generateMusic`: either the transport throws, or an
HTTP response arrives with an `ok` flag, a status code and a body. -/
inductive FetchOutcome where
  | netFail (e : JsError)
  | response (ok : Bool) (status : Nat) (body : BodyOutcome)
deriving DecidableEq, Repr

/-- Method `ElevenLabsOnlyProvider.generateMusic`
(src/providers/ElevenLabsOnlyProvider.ts lines 52-110), parameterized by the
fetch outcome.  A non-ok response raises
`new Error("ElevenLabs API error: " + (errorData.error || response.status))`
with `errorData` defaulting to an Unknown-error object when the body fails to
parse; a parsed body whose status is not success raises
`new Error(data.error || "Music generation failed")`; every exception,
including the verbatim transport exception of a failed fetch or JSON parse,
is re-thrown unchanged by the outer catch (`throw error`). -/
def elevenLabsOnly_generateMusic (prompt : String) (config : ElevenLabsConfig)
    (net : FetchOutcome) : Except JsError GeneratedMusic :=
  let optimizedPrompt := optimizePrompt prompt config
  match net with
  | FetchOutcome.netFail e => Except.error e
  | FetchOutcome.response ok status body =>
    if ok then
      match body with
      | BodyOutcome.malformed e => Except.error e
      | BodyOutcome.json data =>
        if data.status = "success" then
          Except.ok
            { audioUrl := data.url
              duration := data.durationField
              format := jsOrStr data.formatField ("mp3")
              model := "ElevenLabs Music API"
              prompt := optimizedPrompt }
        else
          Except.error (JsError.error (jsOrStr data.errField ("Music generation failed")))
    else
      let errText :=
        match body with
        | BodyOutcome.malformed _ => "Unknown error"
        | BodyOutcome.json data => jsOrStr data.errField (toString status)
      Except.error (JsError.error ("ElevenLabs API error: " ++ errText))

/-- The taxonomy the spec prescribes for provider failures (modelled from the
spec, section 4.2; no such type exists in the source).  A failure satisfies
the spec contract only if it is one of these kinds, never a verbatim
transport exception. -/
inductive SpecProviderErrorKind where
  | authenticationFailed
  | quotaExceeded
  | upstreamUnavailable
  | invalidRequest
  | timeout
deriving DecidableEq, Repr

/-- Whether a raised value is a transport-level exception propagated
verbatim (as opposed to an `Error` the provider itself constructed). -/
def isTransportException (e : JsError) : Bool :=
  match e with
  | JsError.exception _ => true
  | JsError.error _ => false

/-- The underlying exception of a fetch outcome, when the environment raised
one: the rejection of `fetch` itself or of `response.json()`. -/
def underlyingThrow (net : FetchOutcome) (e : JsError) : Prop :=
  match net with
  | FetchOutcome.netFail e0 => e = e0
  | FetchOutcome.response _ _ (BodyOutcome.malformed e0) => e = e0
  | FetchOutcome.response _ _ (BodyOutcome.json _) => False

/-- An audio buffer as produced by `AudioContext.createBuffer` and filled by
the synthetic-tone providers: channel count, sample rate, frame count, and
the float samples (channel, frame), modelled as rationals. -/
structure AudioBufferModel where
  numberOfChannels : Nat
  sampleRate : Nat
  frames : Nat
  samples : Nat → Nat → Rat

/-- The `sample * 0x7FFF` conversion of `bufferToBlob`: clamp the float sample to
[-1, 1]. -/
def jsClamp (q : Rat) : Rat := max (-1) (min 1 q)

/-- The `DataView.setInt16` integer conversion: truncate toward zero. -/
def jsTruncInt (q : Rat) : Int :=
  if q < 0 then -Rat.floor (-q) else Rat.floor q

/-- Two little-endian bytes of `DataView.setInt16` for an integer value
(wraps modulo 2 ^ 16; `%` on Int is `emod`, so the result is nonnegative). -/
def i16leOfInt (v : Int) : List Nat :=
  [((v % 65536).toNat) % 256, ((v % 65536).toNat) / 256 % 256]

/-- Four little-endian bytes of `DataView.setUint32` (wraps modulo 2 ^ 32). -/
def u32le (n : Nat) : List Nat :=
  [n % 256, n / 256 % 256, n / 65536 % 256, n / 16777216 % 256]

/-- Two little-endian bytes of `DataView.setUint16` (wraps modulo 2 ^ 16). -/
def u16le (n : Nat) : List Nat :=
  [n % 256, n / 256 % 256]

/-- The `writeString` helper of `bufferToBlob`: one byte per character
(`charCodeAt`; the tags written are ASCII). -/
def asciiBytes (s : String) : List Nat :=
  s.data.map (fun c => c.toNat % 256)

/-- The interleaved 16-bit PCM payload written by the sample loop of
`bufferToBlob`: for each frame, for each channel, the clamped and scaled
sample. -/
def wavPayload (b : AudioBufferModel) : List Nat :=
  (List.range b.frames).flatMap (fun i =>
    (List.range b.numberOfChannels).flatMap (fun ch =>
      i16leOfInt (jsTruncInt (jsClamp (b.samples ch i) * 32767))))

/-- Method `bufferToBlob` of AudioCraftProvider (src/providers/AudioCraftProvider.ts
lines 138-178), byte-identical in ElevenLabsProvider.bufferToBlob and the
DiffRhythm provider: a 44-byte RIFF/WAVE header followed by the 16-bit PCM
payload. -/
def bufferToBlobBytes (b : AudioBufferModel) : List Nat :=
  asciiBytes ("RIFF")
  ++ u32le (36 + b.frames * b.numberOfChannels * 2)
  ++ asciiBytes ("WAVE")
  ++ asciiBytes ("fmt ")
  ++ u32le 16
  ++ u16le 1
  ++ u16le b.numberOfChannels
  ++ u32le b.sampleRate
  ++ u32le (b.sampleRate * b.numberOfChannels * 2)
  ++ u16le (b.numberOfChannels * 2)
  ++ u16le 16
  ++ asciiBytes ("data")
  ++ u32le (b.frames * b.numberOfChannels * 2)
  ++ wavPayload b

/-- Read one byte of a serialized container (out-of-range reads yield 0;
every read below stays in range). -/
def byteAt (l : List Nat) (i : Nat) : Nat := l.getD i 0

/-- Decode a little-endian 16-bit field at a byte offset. -/
def readU16le (l : List Nat) (off : Nat) : Nat :=
  byteAt l off + 256 * byteAt l (off + 1)

/-- Decode a little-endian 32-bit field at a byte offset. -/
def readU32le (l : List Nat) (off : Nat) : Nat :=
  byteAt l off + 256 * byteAt l (off + 1) + 65536 * byteAt l (off + 2)
    + 16777216 * byteAt l (off + 3)


/-- Every provider-call event recorded by one coordinator attempt carries the
name that attempt was made under. -/
theorem attemptProvider_mem_events (s : ServiceState) (nm : String) (prompt : String)
    (config : MusicGenerationConfig) (e : CallEvent)
    (he : e ∈ (attemptProvider s nm prompt config).2) :
    e = CallEvent.healthCheck nm ∨ e = CallEvent.generate nm := by
  cases hl : s.providers.lookup nm with
  | none => simp [attemptProvider, hl] at he
  | some p =>
    simp only [attemptProvider, hl] at he
    cases hch : p.checkHealth with
    | error e0 => simp [tryProvider, hch] at he; exact Or.inl he
    | ok b =>
      cases b with
      | false => simp [tryProvider, hch] at he; exact Or.inl he
      | true =>
        cases hgen : p.generateMusic prompt config with
        | ok m => simp [tryProvider, hch, hgen] at he; exact he
        | error e0 => simp [tryProvider, hch, hgen] at he; exact he

/-- How the coordinator turns the fallback attempt into its final outcome
when the primary attempt missed. -/
def settleOutcome (r : Option GeneratedMusic) : Except JsError GeneratedMusic :=
  match r with
  | some m => Except.ok m
  | none => Except.error (JsError.error ("All music generation providers are unavailable"))

/-- C1: for every registered primary provider, the coordinator calls the
primary generate if and only if the primary health check resolves true; when
the health check resolves false the primary generate is never invoked and the
coordinator proceeds directly to the fallback attempt; when the primary
generate succeeds its result is returned immediately and no fallback call
(health check or generate) is ever made. -/
theorem coordinator_health_gates_primary_generate
    (s : ServiceState) (p : MProvider) (prompt : String) (config : MusicGenerationConfig)
    (hreg : s.providers.lookup s.primaryProvider = some p) :
    (CallEvent.generate s.primaryProvider ∈ (serviceGenerateMusic s prompt config).2
        ↔ p.checkHealth = Except.ok true)
    ∧ (p.checkHealth = Except.ok false →
        serviceGenerateMusic s prompt config =
          (settleOutcome (attemptProvider s s.fallbackProvider prompt config).1,
           CallEvent.healthCheck s.primaryProvider ::
             (attemptProvider s s.fallbackProvider prompt config).2))
    ∧ (∀ m, p.checkHealth = Except.ok true → p.generateMusic prompt config = Except.ok m →
        serviceGenerateMusic s prompt config =
          (Except.ok m, [CallEvent.healthCheck s.primaryProvider,
                         CallEvent.generate s.primaryProvider])) := by
  have hprim : attemptProvider s s.primaryProvider prompt config
      = tryProvider s.primaryProvider p prompt config := by
    simp [attemptProvider, hreg]
  refine ⟨⟨?_, ?_⟩, ?_, ?_⟩
  · intro hmem
    by_contra hne
    have htry : tryProvider s.primaryProvider p prompt config
        = (none, [CallEvent.healthCheck s.primaryProvider]) := by
      cases hch : p.checkHealth with
      | error e0 => simp [tryProvider, hch]
      | ok b =>
        cases b with
        | false => simp [tryProvider, hch]
        | true => exact absurd hch hne
    rcases hfb : attemptProvider s s.fallbackProvider prompt config with ⟨r2, ev2⟩
    have hsvc : (serviceGenerateMusic s prompt config).2
        = CallEvent.healthCheck s.primaryProvider :: ev2 := by
      cases r2 <;> simp [serviceGenerateMusic, hprim, htry, hfb]
    rw [hsvc] at hmem
    rcases List.mem_cons.mp hmem with h | h
    · exact CallEvent.noConfusion h
    · have h2 : CallEvent.generate s.primaryProvider
          ∈ (attemptProvider s s.fallbackProvider prompt config).2 := by
        rw [hfb]; exact h
      rcases attemptProvider_mem_events s s.fallbackProvider prompt config _ h2 with h3 | h3
      · exact CallEvent.noConfusion h3
      · have hname : s.primaryProvider = s.fallbackProvider := by
          injection h3
        rw [← hname] at hfb
        rw [hprim, htry] at hfb
        have hev2 : ev2 = [CallEvent.healthCheck s.primaryProvider] :=
          (congrArg Prod.snd hfb).symm
        rw [hev2] at h
        simp at h
  · intro hch
    cases hgen : p.generateMusic prompt config with
    | ok m => simp [serviceGenerateMusic, hprim, tryProvider, hch, hgen]
    | error e0 =>
      rcases hfb : attemptProvider s s.fallbackProvider prompt config with ⟨r2, ev2⟩
      cases r2 <;> simp [serviceGenerateMusic, hprim, tryProvider, hch, hgen, hfb]
  · intro hch
    rcases hfb : attemptProvider s s.fallbackProvider prompt config with ⟨r2, ev2⟩
    cases r2 <;> simp [serviceGenerateMusic, settleOutcome, hprim, tryProvider, hch, hfb]
  · intro m hch hgen
    simp [serviceGenerateMusic, hprim, tryProvider, hch, hgen]

/-- A concrete healthy stub provider used to instantiate the coordinator
theorems. -/
def wProvGood : MProvider :=
  { pname := "diffrhythm"
    maxDuration := 285
    supportsVocals := false
    checkHealth := Except.ok true
    generateMusic := fun pr _ =>
      Except.ok { audioUrl := "blob:w", duration := 10, format := "mp3",
                  model := "stub", prompt := pr } }

/-- A coordinator state with only the stub primary registered. -/
def wServ : ServiceState := { providers := [("diffrhythm", wProvGood)] }

/-- Witness for C1 at a concrete registered primary provider. -/
theorem coordinator_health_gates_primary_generate_witness :
    wServ.providers.lookup wServ.primaryProvider = some wProvGood
    ∧ (CallEvent.generate wServ.primaryProvider
        ∈ (serviceGenerateMusic wServ ("p") {}).2 ↔ wProvGood.checkHealth = Except.ok true) :=
  ⟨rfl, (coordinator_health_gates_primary_generate wServ wProvGood ("p") {} rfl).1⟩

/-- C2: the only error the coordinator generate can produce is the single
terminal all-providers-unavailable error; provider-level and transport-level
exceptions raised inside a health check or generate never escape it.  When
both attempts miss, that terminal error is in fact produced. -/
theorem coordinator_error_is_all_providers_unavailable :
    ∀ (s : ServiceState) (prompt : String) (config : MusicGenerationConfig),
      (∀ e, (serviceGenerateMusic s prompt config).1 = Except.error e →
        e = JsError.error ("All music generation providers are unavailable"))
      ∧ ((attemptProvider s s.primaryProvider prompt config).1 = none →
          (attemptProvider s s.fallbackProvider prompt config).1 = none →
          (serviceGenerateMusic s prompt config).1 =
            Except.error (JsError.error ("All music generation providers are unavailable"))) := by
  intro s prompt config
  rcases h1 : attemptProvider s s.primaryProvider prompt config with ⟨r1, ev1⟩
  rcases h2 : attemptProvider s s.fallbackProvider prompt config with ⟨r2, ev2⟩
  constructor
  · intro e he
    cases r1 with
    | some m1 => simp [serviceGenerateMusic, h1] at he
    | none =>
      cases r2 with
      | some m2 => simp [serviceGenerateMusic, h1, h2] at he
      | none =>
        simp [serviceGenerateMusic, h1, h2] at he
        exact he.symm
  · intro hr1 hr2
    simp at hr1 hr2
    subst hr1
    subst hr2
    simp [serviceGenerateMusic, h1, h2]

/-- A coordinator state with an empty provider registry. -/
def wEmptyServ : ServiceState := { providers := [] }

/-- Witness for C2: with no providers registered, generate fails with the
terminal error. -/
theorem coordinator_error_is_all_providers_unavailable_witness :
    (serviceGenerateMusic wEmptyServ ("p") {}).1 =
      Except.error (JsError.error ("All music generation providers are unavailable")) :=
  (coordinator_error_is_all_providers_unavailable wEmptyServ ("p") {}).2 rfl rfl

/-- C10: setPreferredProvider with an unregistered name leaves the service
state entirely unchanged, and every subsequent generate call behaves as if it
had not been called. -/
theorem setPreferredProvider_unregistered_noop
    (s : ServiceState) (nm : String) (h : s.providers.lookup nm = none) :
    setPreferredProvider s nm = s
    ∧ ∀ (prompt : String) (config : MusicGenerationConfig),
        serviceGenerateMusic (setPreferredProvider s nm) prompt config
          = serviceGenerateMusic s prompt config := by
  have h1 : setPreferredProvider s nm = s := by
    simp [setPreferredProvider, h]
  exact ⟨h1, fun prompt config => by rw [h1]⟩

/-- Witness for C10 at a concrete state and unregistered name. -/
theorem setPreferredProvider_unregistered_noop_witness :
    setPreferredProvider wServ ("elevenlabs") = wServ :=
  (setPreferredProvider_unregistered_noop wServ ("elevenlabs") rfl).1

/-- String append is associative (via the underlying character lists). -/
theorem strAppend_assoc (a b c : String) : a ++ b ++ c = a ++ (b ++ c) := by
  obtain ⟨la⟩ := a
  obtain ⟨lb⟩ := b
  obtain ⟨lc⟩ := c
  exact congrArg String.mk (List.append_assoc la lb lc)

/-- Value `x || d` is positive when the default is. -/
theorem jsOrNat_pos (x : Option Nat) (d : Nat) (hd : 0 < d) : 0 < jsOrNat x d := by
  cases x with
  | none => simpa [jsOrNat] using hd
  | some n =>
    by_cases h : n = 0
    · simpa [jsOrNat, h] using hd
    · simp [jsOrNat, h]
      omega

/-- C3 counterexample: a requested duration of 60 makes AudioCraft take the
segmented path, which reports the full 60 seconds — strictly above
`maxDuration = 30` and different from `min(requested, maxDuration)`. -/
theorem audioCraft_segmented_duration_exceeds_max :
    (audioCraft_generateMusic ("p") { duration := some 60 }).duration = 60
    ∧ ¬ ((audioCraft_generateMusic ("p") { duration := some 60 }).duration
          ≤ audioCraft_maxDuration)
    ∧ ¬ ((audioCraft_generateMusic ("p") { duration := some 60 }).duration
          = min 60 audioCraft_maxDuration) := by
  decide

/-- C3 as amended: the AudioCraft result duration is
`min(config.duration || 30, maxDuration)` exactly when the request fits in a
single segment; when the request exceeds `maxDuration`, the segmented path
reports the full requested duration instead. -/
theorem audioCraft_duration_clamped_iff_single_segment
    (prompt : String) (config : MusicGenerationConfig) :
    (jsOrNat config.duration 30 ≤ audioCraft_maxDuration →
      (audioCraft_generateMusic prompt config).duration
        = min (jsOrNat config.duration 30) audioCraft_maxDuration)
    ∧ (audioCraft_maxDuration < jsOrNat config.duration 30 →
      (audioCraft_generateMusic prompt config).duration = jsOrNat config.duration 30) := by
  constructor
  · intro h
    have hpos : 0 < jsOrNat config.duration 30 := jsOrNat_pos config.duration 30 (by omega)
    have h30 : jsOrNat config.duration 30 ≤ 30 := h
    have hseg : ¬ ((jsOrNat config.duration 30 + audioCraft_maxDuration - 1)
        / audioCraft_maxDuration > 1) := by
      show ¬ ((jsOrNat config.duration 30 + 30 - 1) / 30 > 1)
      omega
    simp [audioCraft_generateMusic, hseg, audioCraft_generateSingleSegment]
  · intro h
    cases hcd : config.duration with
    | none =>
      rw [hcd] at h
      simp [jsOrNat, audioCraft_maxDuration] at h
    | some n =>
      by_cases hn : n = 0
      · rw [hcd, hn] at h
        simp [jsOrNat, audioCraft_maxDuration] at h
      · have hjs : jsOrNat config.duration 30 = n := by simp [jsOrNat, hcd, hn]
        have hjs60 : jsOrNat config.duration 60 = n := by simp [jsOrNat, hcd, hn]
        have hgt : 30 < n := by rw [hjs] at h; exact h
        have hseg : 1 < (n + 29) / 30 := by omega
        simp [audioCraft_generateMusic, audioCraft_generateSegmentedMusic,
          audioCraft_maxDuration, hcd, jsOrNat, hn, hseg]

/-- Witness for the amended C3 at two concrete requests, one per branch. -/
theorem audioCraft_duration_clamped_witness :
    (audioCraft_generateMusic ("w") { duration := some 20 }).duration
      = min (jsOrNat (some 20) 30) audioCraft_maxDuration
    ∧ (audioCraft_generateMusic ("w") { duration := some 45 }).duration
      = jsOrNat (some 45) 30 :=
  ⟨(audioCraft_duration_clamped_iff_single_segment ("w") { duration := some 20 }).1 (by decide),
   (audioCraft_duration_clamped_iff_single_segment ("w") { duration := some 45 }).2 (by decide)⟩

/-- C9: when the requested duration exceeds the AudioCraft maximum, the
segmented path returns the audio URL of the first 30-second segment only
while reporting the full requested duration. -/
theorem audioCraft_segmented_returns_first_segment
    (prompt : String) (config : MusicGenerationConfig) (d : Nat)
    (hd : config.duration = some d) (h30 : audioCraft_maxDuration < d) :
    (audioCraft_generateMusic prompt config).audioUrl
      = audioCraft_blobUrl (prompt ++ " (segment 1)") 30
    ∧ (audioCraft_generateMusic prompt config).duration = d := by
  have h30n : 30 < d := h30
  have hn : d ≠ 0 := by omega
  have hjs : jsOrNat config.duration 30 = d := by simp [jsOrNat, hd, hn]
  have hjs60 : jsOrNat config.duration 60 = d := by simp [jsOrNat, hd, hn]
  have hseg : (jsOrNat config.duration 30 + audioCraft_maxDuration - 1)
      / audioCraft_maxDuration > 1 := by
    show (jsOrNat config.duration 30 + 30 - 1) / 30 > 1
    omega
  have hsegN : (jsOrNat config.duration 30 + audioCraft_maxDuration - 1)
      / audioCraft_maxDuration = (d + 29) / 30 := by
    rw [hjs]
    rfl
  have hif : audioCraft_generateMusic prompt config
      = audioCraft_generateSegmentedMusic prompt config ((d + 29) / 30) := by
    simp only [audioCraft_generateMusic, gt_iff_lt]
    rw [if_pos hseg, hsegN]
  constructor
  · rw [hif]
    obtain ⟨k, hk⟩ : ∃ k, (d + 29) / 30 = k + 1 := ⟨(d + 29) / 30 - 1, by omega⟩
    have hk1 : 1 ≤ k := by omega
    have h0k : ¬ ((0 : Nat) = k) := by omega
    rw [hk]
    simp only [audioCraft_generateSegmentedMusic, List.range_succ_eq_map, List.map_cons,
      audioCraft_combineAudioSegments, List.headD_cons]
    simp only [audioCraft_generateSingleSegment, audioCraft_segmentConfig,
      Nat.add_sub_cancel, h0k, if_false, jsOrNat, audioCraft_maxDuration]
    have harg : prompt ++ " (segment " ++ toString (0 + 1) ++ ")" = prompt ++ " (segment 1)" := by
      rw [strAppend_assoc, strAppend_assoc]
      congr 1
    simp only [harg]
    simp
  · rw [hif]
    simp [audioCraft_generateSegmentedMusic, hjs60]

/-- Witness for C9 at a concrete 60-second request. -/
theorem audioCraft_segmented_returns_first_segment_witness :
    (audioCraft_generateMusic ("p") { duration := some 60 }).audioUrl
      = audioCraft_blobUrl ("p" ++ " (segment 1)") 30 :=
  (audioCraft_segmented_returns_first_segment ("p") { duration := some 60 } 60 rfl
    (by decide)).1

/-- C4 counterexample: in the ElevenLabs providers the descriptive tempo
"medium" maps to 110 BPM, not the claimed 90, and the built prompt emits
110. -/
theorem convertTempo_medium_is_not_90 :
    ¬ (elevenLabsOnly_convertTempoToBPM (TempoVal.str ("medium")) = 90)
    ∧ optimizePrompt ("calm") { duration := 60, tempo := some (TempoVal.str ("medium")) }
      = "calm. Tempo: 110 BPM. Duration: 60 seconds. High quality professional music production." := by
  decide

/-- C4 as amended: the agent converter uses the claimed table
(slow 70, medium 90, fast 110, default 80), while the ElevenLabs providers
use very slow 60, slow 70, moderate 90, medium 110, fast 130, very fast 150
with default 90 for any unrecognized descriptive tempo. -/
theorem convertTempo_tables_characterized :
    agent_convertTempoToBPM (some ("slow")) = 70
    ∧ agent_convertTempoToBPM (some ("medium")) = 90
    ∧ agent_convertTempoToBPM (some ("fast")) = 110
    ∧ agent_convertTempoToBPM none = 80
    ∧ (∀ s : String, s ≠ "slow" → s ≠ "medium" → s ≠ "fast" →
        agent_convertTempoToBPM (some s) = 80)
    ∧ elevenLabsOnly_convertTempoToBPM (TempoVal.str ("very slow")) = 60
    ∧ elevenLabsOnly_convertTempoToBPM (TempoVal.str ("slow")) = 70
    ∧ elevenLabsOnly_convertTempoToBPM (TempoVal.str ("moderate")) = 90
    ∧ elevenLabsOnly_convertTempoToBPM (TempoVal.str ("medium")) = 110
    ∧ elevenLabsOnly_convertTempoToBPM (TempoVal.str ("fast")) = 130
    ∧ elevenLabsOnly_convertTempoToBPM (TempoVal.str ("very fast")) = 150
    ∧ (∀ s : String, tempoMapEL.lookup (jsToLower s) = none →
        elevenLabsOnly_convertTempoToBPM (TempoVal.str s) = 90) := by
  refine ⟨by decide, by decide, by decide, by decide, ?_, by decide, by decide, by decide,
    by decide, by decide, by decide, ?_⟩
  · intro s h1 h2 h3
    simp [agent_convertTempoToBPM, h1, h2, h3]
  · intro s h
    simp [elevenLabsOnly_convertTempoToBPM, h]

/-- Witness for the amended C4 default cases at concrete unrecognized
tempos. -/
theorem convertTempo_tables_characterized_witness :
    agent_convertTempoToBPM (some ("gentle")) = 80
    ∧ elevenLabsOnly_convertTempoToBPM (TempoVal.str ("andante")) = 90 :=
  ⟨convertTempo_tables_characterized.2.2.2.2.1 ("gentle") (by decide) (by decide) (by decide),
   convertTempo_tables_characterized.2.2.2.2.2.2.2.2.2.2.2 ("andante") (by decide)⟩

/-- One call of `optimizePrompt` together with its observable effect: the
returned string and the console after the single `console.log` the function
performs. -/
def optimizePromptLoggedCall (prompt : String) (config : ElevenLabsConfig)
    (console : List String) : String × List String :=
  (optimizePrompt prompt config,
   console ++ ["ElevenLabs optimized prompt: " ++ optimizePrompt prompt config])

/-- C6: the prompt builder is deterministic and reads no state: the returned
string is the same for any prior console state, and an immediate second call
with the same inputs returns the identical string. -/
theorem optimizePrompt_pure_deterministic :
    ∀ (prompt : String) (config : ElevenLabsConfig) (w1 w2 : List String),
      (optimizePromptLoggedCall prompt config w1).1 = (optimizePromptLoggedCall prompt config w2).1
      ∧ (optimizePromptLoggedCall prompt config
            ((optimizePromptLoggedCall prompt config w1).2)).1
          = (optimizePromptLoggedCall prompt config w1).1 :=
  fun _ _ _ _ => ⟨rfl, rfl⟩

/-- C8 counterexample: a transport-level fetch rejection escapes
`ElevenLabsOnlyProvider.generateMusic` verbatim. -/
theorem elevenLabsOnly_rethrows_transport_exception :
    elevenLabsOnly_generateMusic ("p") { duration := 60 }
        (FetchOutcome.netFail (JsError.exception ("TypeError: Failed to fetch")))
      = Except.error (JsError.exception ("TypeError: Failed to fetch"))
    ∧ isTransportException (JsError.exception ("TypeError: Failed to fetch")) = true :=
  ⟨rfl, rfl⟩

/-- C8 as amended: every failure of `ElevenLabsOnlyProvider.generateMusic`
is either an `Error` the provider constructed itself (the wrapped API-error
message, the data error, or the generic failure message) or the verbatim
underlying exception of the fetch or JSON parse; no ProviderError taxonomy
exists in the code. -/
theorem elevenLabsOnly_error_characterization
    (prompt : String) (config : ElevenLabsConfig) (net : FetchOutcome) (e : JsError)
    (h : elevenLabsOnly_generateMusic prompt config net = Except.error e) :
    (∃ msg, e = JsError.error msg) ∨ underlyingThrow net e := by
  cases net with
  | netFail e0 =>
    right
    simp [elevenLabsOnly_generateMusic] at h
    simp [underlyingThrow, h]
  | response ok status body =>
    cases ok with
    | false =>
      left
      cases body with
      | malformed e0 =>
        simp [elevenLabsOnly_generateMusic] at h
        exact ⟨_, h.symm⟩
      | json data =>
        simp [elevenLabsOnly_generateMusic] at h
        exact ⟨_, h.symm⟩
    | true =>
      cases body with
      | malformed e0 =>
        right
        simp [elevenLabsOnly_generateMusic] at h
        simp [underlyingThrow, h]
      | json data =>
        by_cases hs : data.status = "success"
        · simp [elevenLabsOnly_generateMusic, hs] at h
        · left
          simp [elevenLabsOnly_generateMusic, hs] at h
          exact ⟨_, h.symm⟩

/-- Witness for the amended C8 at a concrete failing fetch. -/
theorem elevenLabsOnly_error_characterization_witness :
    (∃ msg, JsError.exception ("boom") = JsError.error msg)
      ∨ underlyingThrow (FetchOutcome.netFail (JsError.exception ("boom")))
          (JsError.exception ("boom")) :=
  elevenLabsOnly_error_characterization ("p") { duration := 60 }
    (FetchOutcome.netFail (JsError.exception ("boom"))) (JsError.exception ("boom")) rfl

/-- The tempo clause `optimizePrompt` appends ("" when absent). -/
def tempoClause (config : ElevenLabsConfig) : String :=
  if tempoTruthy config.tempo then
    match config.tempo with
    | some t => ". Tempo: " ++ toString (elevenLabsOnly_convertTempoToBPM t) ++ " BPM"
    | none => ""
  else ""

/-- The style clause `optimizePrompt` appends ("" when absent or empty). -/
def styleClause (config : ElevenLabsConfig) : String :=
  match config.style with
  | some s => if s = "" then "" else ". Style: " ++ s
  | none => ""

/-- The mood clause `optimizePrompt` appends ("" when absent or empty). -/
def moodClause (config : ElevenLabsConfig) : String :=
  match config.mood with
  | some m => if m = "" then "" else ". Mood: " ++ m
  | none => ""

/-- The instruments clause `optimizePrompt` appends ("" when absent or
empty). -/
def instrumentsClause (config : ElevenLabsConfig) : String :=
  match config.instruments with
  | some l => if l.length > 0 then ". Instruments: " ++ String.intercalate (", ") l else ""
  | none => ""

/-- The duration clause `optimizePrompt` always appends. -/
def durationClause (config : ElevenLabsConfig) : String :=
  ". Duration: " ++ toString (if config.duration = 0 then 30 else config.duration) ++ " seconds"

/-- The key clause `optimizePrompt` appends ("" when absent or empty). -/
def keyClause (config : ElevenLabsConfig) : String :=
  match config.key with
  | some k => if k = "" then "" else ". Key: " ++ k
  | none => ""

/-- The fixed closing qualifier `optimizePrompt` always appends. -/
def qualityClause : String := ". High quality professional music production."

/-- Modelled from the spec: the clause order claim C5 asserts for the prompt
builder — base text, then duration, style, mood, tempo, instruments, then
the closing quality qualifier (the binaural clause does not apply since the
config has no binaural field).  The clause texts are the ones the source
emits; only the order follows the claim. -/
def specOrderPrompt (prompt : String) (config : ElevenLabsConfig) : String :=
  jsTrim prompt ++ durationClause config ++ styleClause config ++ moodClause config
    ++ tempoClause config ++ instrumentsClause config ++ qualityClause

/-- C5 counterexample: on a request with duration, style and tempo set, the
built prompt orders the clauses tempo before style before duration, not
duration before style before tempo as claimed. -/
theorem optimizePrompt_order_differs_from_claim :
    optimizePrompt ("calm")
        { duration := 60, style := some ("ambient"), tempo := some (TempoVal.str ("slow")) }
      ≠ specOrderPrompt ("calm")
        { duration := 60, style := some ("ambient"), tempo := some (TempoVal.str ("slow")) }
    ∧ optimizePrompt ("calm")
        { duration := 60, style := some ("ambient"), tempo := some (TempoVal.str ("slow")) }
      = "calm. Tempo: 70 BPM. Style: ambient. Duration: 60 seconds. High quality professional music production."
    ∧ specOrderPrompt ("calm")
        { duration := 60, style := some ("ambient"), tempo := some (TempoVal.str ("slow")) }
      = "calm. Duration: 60 seconds. Style: ambient. Tempo: 70 BPM. High quality professional music production." := by
  refine ⟨?_, by decide, by decide⟩
  decide

/-- Appending the conditional tempo text equals appending `tempoClause`. -/
theorem stepTempo (o : String) (c : ElevenLabsConfig) :
    (if tempoTruthy c.tempo then
       match c.tempo with
       | some t => o ++ ". Tempo: " ++ toString (elevenLabsOnly_convertTempoToBPM t) ++ " BPM"
       | none => o
     else o)
    = o ++ tempoClause c := by
  unfold tempoClause
  cases ht : c.tempo with
  | none => simp [tempoTruthy, String.append_empty]
  | some tv =>
    dsimp only
    by_cases h : tempoTruthy (some tv)
    · simp only [h, if_true]
      simp only [strAppend_assoc]
    · simp [h, String.append_empty]

/-- Appending the conditional style text equals appending `styleClause`. -/
theorem stepStyle (o : String) (c : ElevenLabsConfig) :
    (match c.style with
     | some s => if s = "" then o else o ++ ". Style: " ++ s
     | none => o)
    = o ++ styleClause c := by
  unfold styleClause
  cases c.style with
  | none => dsimp only; rw [String.append_empty]
  | some s =>
    dsimp only
    by_cases h : s = ""
    · rw [if_pos h, if_pos h, String.append_empty]
    · rw [if_neg h, if_neg h, strAppend_assoc]

/-- Appending the conditional mood text equals appending `moodClause`. -/
theorem stepMood (o : String) (c : ElevenLabsConfig) :
    (match c.mood with
     | some m => if m = "" then o else o ++ ". Mood: " ++ m
     | none => o)
    = o ++ moodClause c := by
  unfold moodClause
  cases c.mood with
  | none => dsimp only; rw [String.append_empty]
  | some m =>
    dsimp only
    by_cases h : m = ""
    · rw [if_pos h, if_pos h, String.append_empty]
    · rw [if_neg h, if_neg h, strAppend_assoc]

/-- Appending the conditional instruments text equals appending
`instrumentsClause`. -/
theorem stepInstruments (o : String) (c : ElevenLabsConfig) :
    (match c.instruments with
     | some l => if l.length > 0 then o ++ ". Instruments: " ++ String.intercalate (", ") l else o
     | none => o)
    = o ++ instrumentsClause c := by
  unfold instrumentsClause
  cases c.instruments with
  | none => dsimp only; rw [String.append_empty]
  | some l =>
    dsimp only
    by_cases h : l.length > 0
    · rw [if_pos h, if_pos h, strAppend_assoc]
    · rw [if_neg h, if_neg h, String.append_empty]

/-- Appending the conditional key text equals appending `keyClause`. -/
theorem stepKey (o : String) (c : ElevenLabsConfig) :
    (match c.key with
     | some k => if k = "" then o else o ++ ". Key: " ++ k
     | none => o)
    = o ++ keyClause c := by
  unfold keyClause
  cases c.key with
  | none => dsimp only; rw [String.append_empty]
  | some k =>
    dsimp only
    by_cases h : k = ""
    · rw [if_pos h, if_pos h, String.append_empty]
    · rw [if_neg h, if_neg h, strAppend_assoc]

/-- C5 as amended: the built prompt is exactly the trimmed base text followed
by the tempo, style, mood, instruments, duration and key clauses in that
fixed order (each empty when its field is absent; the duration clause always
present), ending with the fixed closing quality qualifier; no binaural clause
exists in this builder. -/
theorem optimizePrompt_clause_decomposition :
    ∀ (prompt : String) (config : ElevenLabsConfig),
      optimizePrompt prompt config
        = jsTrim prompt ++ tempoClause config ++ styleClause config ++ moodClause config
            ++ instrumentsClause config ++ durationClause config ++ keyClause config
            ++ qualityClause := by
  intro prompt config
  unfold optimizePrompt
  dsimp only
  rw [stepTempo, stepStyle, stepMood, stepInstruments, stepKey]
  unfold durationClause qualityClause
  simp only [strAppend_assoc]

/-- A flatMap whose element images all have the same length. -/
theorem flatMap_const_length {α : Type} (f : α → List Nat) (c : Nat)
    (h : ∀ a, (f a).length = c) : ∀ l : List α, (l.flatMap f).length = l.length * c := by
  intro l
  induction l with
  | nil => simp
  | cons a t ih =>
    simp only [List.flatMap_cons, List.length_append, List.length_cons, h a, ih]
    ring

/-- The PCM payload holds two bytes per sample slot: frames times channels
times two bytes. -/
theorem wavPayload_length (b : AudioBufferModel) :
    (wavPayload b).length = b.frames * (b.numberOfChannels * 2) := by
  unfold wavPayload
  have h1 : ∀ i, ((List.range b.numberOfChannels).flatMap fun ch =>
      i16leOfInt (jsTruncInt (jsClamp (b.samples ch i) * 32767))).length
      = b.numberOfChannels * 2 := by
    intro i
    rw [flatMap_const_length
        (fun ch => i16leOfInt (jsTruncInt (jsClamp (b.samples ch i) * 32767))) 2
        (fun ch => rfl) _,
      List.length_range]
  rw [flatMap_const_length _ (b.numberOfChannels * 2) h1 _, List.length_range]

/-- Reading one byte past a prefix reads into the suffix. -/
theorem byteAt_append (l1 l2 : List Nat) (n : Nat) :
    byteAt (l1 ++ l2) (l1.length + n) = byteAt l2 n := by
  induction l1 with
  | nil => simp [byteAt]
  | cons a t ih =>
    have h : (a :: t).length + n = (t.length + n) + 1 := by
      simp [List.length_cons]
      omega
    rw [h, List.cons_append]
    exact ih

/-- Reading a 16-bit field past a prefix reads into the suffix. -/
theorem readU16le_skip (pre l : List Nat) (k : Nat) :
    readU16le (pre ++ l) (pre.length + k) = readU16le l k := by
  unfold readU16le
  have h1 : pre.length + k + 1 = pre.length + (k + 1) := by omega
  rw [h1, byteAt_append, byteAt_append]

/-- Reading a 32-bit field past a prefix reads into the suffix. -/
theorem readU32le_skip (pre l : List Nat) (k : Nat) :
    readU32le (pre ++ l) (pre.length + k) = readU32le l k := by
  unfold readU32le
  have h1 : pre.length + k + 1 = pre.length + (k + 1) := by omega
  have h2 : pre.length + k + 2 = pre.length + (k + 2) := by omega
  have h3 : pre.length + k + 3 = pre.length + (k + 3) := by omega
  rw [h1, h2, h3, byteAt_append, byteAt_append, byteAt_append, byteAt_append]

/-- Decoding the two bytes `setUint16` wrote recovers the value modulo
2 ^ 16. -/
theorem readU16le_u16le (n : Nat) (rest : List Nat) :
    readU16le (u16le n ++ rest) 0 = n % 256 + 256 * (n / 256 % 256) := rfl

/-- Decoding the four bytes `setUint32` wrote recovers the value modulo
2 ^ 32. -/
theorem readU32le_u32le (n : Nat) (rest : List Nat) :
    readU32le (u32le n ++ rest) 0 = n % 256 + 256 * (n / 256 % 256)
      + 65536 * (n / 65536 % 256) + 16777216 * (n / 16777216 % 256) := rfl

/-- A 16-bit field written at the end of a prefix of known length reads back
exactly when the value fits. -/
theorem readU16le_at (pre : List Nat) (n : Nat) (rest : List Nat) (off : Nat)
    (hoff : pre.length = off) (hn : n < 65536) :
    readU16le (pre ++ (u16le n ++ rest)) off = n := by
  subst hoff
  rw [← Nat.add_zero pre.length, readU16le_skip, readU16le_u16le]
  omega

/-- A 32-bit field written at the end of a prefix of known length reads back
exactly when the value fits. -/
theorem readU32le_at (pre : List Nat) (n : Nat) (rest : List Nat) (off : Nat)
    (hoff : pre.length = off) (hn : n < 4294967296) :
    readU32le (pre ++ (u32le n ++ rest)) off = n := by
  subst hoff
  rw [← Nat.add_zero pre.length, readU32le_skip, readU32le_u32le]
  omega

/-- Call `setUint32` writes four bytes. -/
theorem u32le_length (n : Nat) : (u32le n).length = 4 := rfl

/-- Call `setUint16` writes two bytes. -/
theorem u16le_length (n : Nat) : (u16le n).length = 2 := rfl

/-- C7: the WAV container the synthetic-tone providers serialize has a
standard-conformant header: the RIFF chunk size is 36 plus the payload
length, the data chunk size is frames times channels times two bytes, the
format tags declare PCM (audio format 1) at 16 bits per sample, the declared
sample rate is the actual sample rate of the buffer, and the declared channel
count is 2; the payload length agrees with the data chunk size. -/
theorem wav_header_standard_conformant (b : AudioBufferModel)
    (hch : b.numberOfChannels = 2)
    (hlen : 36 + b.frames * 2 * 2 < 4294967296)
    (hsr : b.sampleRate < 4294967296) :
    readU32le (bufferToBlobBytes b) 4 = 36 + b.frames * 2 * 2
    ∧ readU32le (bufferToBlobBytes b) 40 = b.frames * 2 * 2
    ∧ readU16le (bufferToBlobBytes b) 20 = 1
    ∧ readU16le (bufferToBlobBytes b) 34 = 16
    ∧ readU32le (bufferToBlobBytes b) 24 = b.sampleRate
    ∧ readU16le (bufferToBlobBytes b) 22 = 2
    ∧ (wavPayload b).length = b.frames * 2 * 2 := by
  obtain ⟨ch, sr, fr, smp⟩ := b
  dsimp only at hch hlen hsr ⊢
  subst hch
  have hwav : ∀ tail : List Nat,
      bufferToBlobBytes ⟨2, sr, fr, smp⟩
        = asciiBytes ("RIFF") ++ (u32le (36 + fr * 2 * 2)
          ++ (asciiBytes ("WAVE") ++ (asciiBytes ("fmt ") ++ (u32le 16 ++ (u16le 1
          ++ (u16le 2 ++ (u32le sr ++ (u32le (sr * 2 * 2) ++ (u16le (2 * 2)
          ++ (u16le 16 ++ (asciiBytes ("data") ++ (u32le (fr * 2 * 2)
          ++ wavPayload ⟨2, sr, fr, smp⟩)))))))))))) := by
    intro tail
    simp only [bufferToBlobBytes, List.append_assoc]
  have hw := hwav []
  have hR : (asciiBytes ("RIFF")).length = 4 := by decide
  have hW : (asciiBytes ("WAVE")).length = 4 := by decide
  have hF : (asciiBytes ("fmt ")).length = 4 := by decide
  have hD : (asciiBytes ("data")).length = 4 := by decide
  refine ⟨?_, ?_, ?_, ?_, ?_, ?_, ?_⟩
  · rw [hw]
    exact readU32le_at _ _ _ 4 hR (by omega)
  · rw [hw, ← List.append_assoc, ← List.append_assoc, ← List.append_assoc,
      ← List.append_assoc, ← List.append_assoc, ← List.append_assoc, ← List.append_assoc,
      ← List.append_assoc, ← List.append_assoc, ← List.append_assoc, ← List.append_assoc]
    refine readU32le_at _ _ _ 40 ?_ (by omega)
    simp [List.length_append, hR, hW, hF, hD, u32le_length, u16le_length]
  · rw [hw, ← List.append_assoc, ← List.append_assoc, ← List.append_assoc,
      ← List.append_assoc]
    refine readU16le_at _ _ _ 20 ?_ (by omega)
    simp [List.length_append, hR, hW, hF, u32le_length]
  · rw [hw, ← List.append_assoc, ← List.append_assoc, ← List.append_assoc,
      ← List.append_assoc, ← List.append_assoc, ← List.append_assoc, ← List.append_assoc,
      ← List.append_assoc, ← List.append_assoc]
    refine readU16le_at _ _ _ 34 ?_ (by omega)
    simp [List.length_append, hR, hW, hF, u32le_length, u16le_length]
  · rw [hw, ← List.append_assoc, ← List.append_assoc, ← List.append_assoc,
      ← List.append_assoc, ← List.append_assoc, ← List.append_assoc]
    refine readU32le_at _ _ _ 24 ?_ hsr
    simp [List.length_append, hR, hW, hF, u32le_length, u16le_length]
  · rw [hw, ← List.append_assoc, ← List.append_assoc, ← List.append_assoc,
      ← List.append_assoc, ← List.append_assoc]
    refine readU16le_at _ _ _ 22 ?_ (by omega)
    simp [List.length_append, hR, hW, hF, u32le_length, u16le_length]
  · have h := wavPayload_length ⟨2, sr, fr, smp⟩
    dsimp only at h
    omega

/-- A concrete two-channel silent buffer. -/
def wBuf : AudioBufferModel :=
  { numberOfChannels := 2, sampleRate := 44100, frames := 2, samples := fun _ _ => 0 }

/-- Witness for C7 at the concrete buffer. -/
theorem wav_header_standard_conformant_witness :
    (wBuf.numberOfChannels = 2 ∧ 36 + wBuf.frames * 2 * 2 < 4294967296
      ∧ wBuf.sampleRate < 4294967296)
    ∧ readU32le (bufferToBlobBytes wBuf) 24 = wBuf.sampleRate :=
  ⟨⟨rfl, by decide, by decide⟩,
   (wav_header_standard_conformant wBuf rfl (by decide) (by decide)).2.2.2.2.1⟩
